import Mathlib

/-!
Shallow embedding of the Vlamax metabolic-analysis script (`vlamax.py`).

The script reads five scalars from a form (vo2max, lt1_hr, lt2_hr, max_hr,
sprint_power), runs a validation block, and then — at module top level,
outside the validated branch — computes a lactate curve, VO2 kinetics
curves, a fuel-split curve and five heart-rate zones.

Numeric values are modelled as exact rationals (ℚ); the one transcendental
series (VO2 kinetics, which uses `exp`) is modelled over ℝ.  The numpy
`full_like` call that builds the O₂-demand series inherits the *integer*
dtype of the time array, so that series is modelled as an integer obtained
by truncation toward zero, exactly as a float64→int64 cast behaves.
-/

/-- The five scalars the form collects (`vo2max`, `lt1_hr`, `lt2_hr`,
`max_hr`, `sprint_power` in the script). -/
structure AthleteProfile where
  vo2max : ℚ
  lt1Hr : ℚ
  lt2Hr : ℚ
  maxHr : ℚ
  sprintPower : ℚ
deriving DecidableEq

/-- The validation block of the script (lines 24–31): positivity of all
five inputs, then the ordering `lt1_hr < lt2_hr < max_hr`.  Returns
`true` exactly when neither `st.error` branch fires. -/
def validationOk (p : AthleteProfile) : Bool :=
  if p.vo2max ≤ 0 ∨ p.lt1Hr ≤ 0 ∨ p.lt2Hr ≤ 0 ∨ p.maxHr ≤ 0 ∨ p.sprintPower ≤ 0 then
    false
  else if ¬ (p.lt1Hr < p.lt2Hr ∧ p.lt2Hr < p.maxHr) then
    false
  else
    true

/-- First lactate segment formula (line 40): `1 + 0.5 * (p/(0.6*S))`. -/
def lactateSeg1 (S p : ℚ) : ℚ := 1 + 0.5 * (p / (0.6 * S))

/-- Second lactate segment formula (line 42):
`1.5 + 2 * ((p - 0.6*S)/(0.3*S))`. -/
def lactateSeg2 (S p : ℚ) : ℚ := 1.5 + 2 * ((p - 0.6 * S) / (0.3 * S))

/-- Third lactate segment formula (line 44):
`3.5 + 5 * ((p - 0.9*S)/(0.2*S))`. -/
def lactateSeg3 (S p : ℚ) : ℚ := 3.5 + 5 * ((p - 0.9 * S) / (0.2 * S))

/-- The three-segment piecewise lactate function (lines 38–44). -/
def lactate (S p : ℚ) : ℚ :=
  if p < 0.6 * S then lactateSeg1 S p
  else if p < 0.9 * S then lactateSeg2 S p
  else lactateSeg3 S p

/-- The `i`-th intensity sample: `np.linspace(0.4, 1.1, 15) * sprint_power`
has step `0.05`, so sample `i` is `(0.4 + 0.05*i) * S` (line 35). -/
def intensity (S : ℚ) (i : ℕ) : ℚ := (0.4 + 0.05 * (i : ℚ)) * S

/-- The 15 intensity samples of the lactate curve (line 35). -/
def intensities (S : ℚ) : List ℚ := (List.range 15).map (intensity S)

/-- Division that records a zero divisor instead of defaulting, used to
track where the script's lactate loop would divide by zero. -/
def divChecked (a b : ℚ) : Option ℚ := if b = 0 then none else some (a / b)

/-- The lactate loop body with its divisions checked: returns `none`
exactly when the branch taken divides by a zero denominator. -/
def lactateChecked (S p : ℚ) : Option ℚ :=
  if p < 0.6 * S then (divChecked p (0.6 * S)).map (fun r => 1 + 0.5 * r)
  else if p < 0.9 * S then
    (divChecked (p - 0.6 * S) (0.3 * S)).map (fun r => 1.5 + 2 * r)
  else (divChecked (p - 0.9 * S) (0.2 * S)).map (fun r => 3.5 + 5 * r)

/-- `time = np.arange(0, 300, 5)`: the 60 sample times (line 56). -/
def timeSamples : List ℕ := (List.range 60).map (· * 5)

/-- `vo2_steady = vo2max * 0.85` (line 58). -/
def vo2_steady (vo2max : ℚ) : ℚ := vo2max * 0.85

/-- Truncation toward zero, the behaviour of a numpy float64→int64 cast. -/
def truncQ (q : ℚ) : ℤ := if 0 ≤ q then ⌊q⌋ else ⌈q⌉

/-- `o2_demand = np.full_like(time, vo2_steady)` (line 60): `time` has
integer dtype, so `full_like` fills with `vo2_steady` cast to int64,
i.e. truncated toward zero.  The series is constant in `t`. -/
def o2_demand (vo2max : ℚ) : ℤ := truncQ (vo2_steady vo2max)

/-- `vo2_actual = vo2_steady * (1 - np.exp(-time/tau))` with `tau = 40`
(lines 57–59), over ℝ since it involves `exp`. -/
noncomputable def vo2_actual (vo2max : ℝ) (t : ℝ) : ℝ :=
  vo2max * 0.85 * (1 - Real.exp (-t / 40))

/-- The `i`-th fuel-split intensity: `np.linspace(50, 100, 11)` has step 5,
so sample `i` is `50 + 5*i` (line 68). -/
def intensityPct (i : ℕ) : ℚ := 50 + 5 * (i : ℚ)

/-- `fat_pct = np.clip(80 - 8*(intensity_pct-50)/5, 0, 80)` (line 70). -/
def fat_pct (x : ℚ) : ℚ := min (max (80 - 8 * (x - 50) / 5) 0) 80

/-- `carb_pct = 100 - fat_pct` (line 71). -/
def carb_pct (x : ℚ) : ℚ := 100 - fat_pct x

/-- `total_cal = 10` (line 72). -/
def total_cal : ℚ := 10

/-- `calories = total_cal * (intensity_pct/50)` (line 73). -/
def calories (x : ℚ) : ℚ := total_cal * (x / 50)

/-- `fat_cal = calories * fat_pct/100` (line 74). -/
def fat_cal (x : ℚ) : ℚ := calories x * fat_pct x / 100

/-- `carb_cal = calories * carb_pct/100` (line 75). -/
def carb_cal (x : ℚ) : ℚ := calories x * carb_pct x / 100

/-- The zone dictionary (lines 87–93), in insertion order: name, lower
bound, upper bound. -/
def zones (lt1 lt2 maxHr : ℚ) : List (String × ℚ × ℚ) :=
  [("Zone 1 (Easy/Recovery)", 0, lt1),
   ("Zone 2 (Endurance)", lt1, (lt1 + lt2) / 2),
   ("Zone 3 (Threshold)", (lt1 + lt2) / 2, lt2),
   ("Zone 4 (Interval)", lt2, 0.95 * maxHr),
   ("Zone 5 (Max Effort)", 0.95 * maxHr, maxHr)]

/-- The computable part of what one run of the script produces: the
lactate samples, the (integer) O₂-demand series, the fuel-split series
and the zone table.  In the script all of these are computed at module
top level, unconditionally — the validation block only writes a message. -/
structure AnalysisResult where
  lactateCurve : List ℚ
  o2DemandCurve : List ℤ
  fatKcalCurve : List ℚ
  carbKcalCurve : List ℚ
  zoneTable : List (String × ℚ × ℚ)
deriving DecidableEq

/-- One pass of the script's calculation section (lines 35–93), which the
script executes regardless of the outcome of `validationOk`. -/
def computeAll (p : AthleteProfile) : AnalysisResult where
  lactateCurve := (intensities p.sprintPower).map (lactate p.sprintPower)
  o2DemandCurve := timeSamples.map (fun _ => o2_demand p.vo2max)
  fatKcalCurve := (List.range 11).map (fun i => fat_cal (intensityPct i))
  carbKcalCurve := (List.range 11).map (fun i => carb_cal (intensityPct i))
  zoneTable := zones p.lt1Hr p.lt2Hr p.maxHr

/-! ## Helper lemmas about the lactate segments -/

theorem seg1_mono (S : ℚ) (hS : 0 < S) {p q : ℚ} (h : p ≤ q) :
    lactateSeg1 S p ≤ lactateSeg1 S q := by
  unfold lactateSeg1
  have hc : (0:ℚ) < 0.6 * S := by positivity
  have := (div_le_div_iff_of_pos_right hc).mpr h
  linarith

theorem seg1_ub (S : ℚ) (hS : 0 < S) {p : ℚ} (h : p < 0.6 * S) :
    lactateSeg1 S p ≤ 1.5 := by
  unfold lactateSeg1
  have hc : (0:ℚ) < 0.6 * S := by positivity
  have := (div_lt_one hc).mpr h
  linarith

theorem seg2_lb (S : ℚ) (hS : 0 < S) {p : ℚ} (h : 0.6 * S ≤ p) :
    1.5 ≤ lactateSeg2 S p := by
  unfold lactateSeg2
  have hc : (0:ℚ) < 0.3 * S := by positivity
  have : 0 ≤ (p - 0.6 * S) / (0.3 * S) := div_nonneg (by linarith) (le_of_lt hc)
  linarith

theorem seg2_mono (S : ℚ) (hS : 0 < S) {p q : ℚ} (h : p ≤ q) :
    lactateSeg2 S p ≤ lactateSeg2 S q := by
  unfold lactateSeg2
  have hc : (0:ℚ) < 0.3 * S := by positivity
  have := (div_le_div_iff_of_pos_right hc).mpr (show p - 0.6*S ≤ q - 0.6*S by linarith)
  linarith

theorem seg2_ub (S : ℚ) (hS : 0 < S) {p : ℚ} (h : p < 0.9 * S) :
    lactateSeg2 S p ≤ 3.5 := by
  unfold lactateSeg2
  have hc : (0:ℚ) < 0.3 * S := by positivity
  have := (div_lt_one hc).mpr (show p - 0.6*S < 0.3*S by linarith)
  linarith

theorem seg3_lb (S : ℚ) (hS : 0 < S) {p : ℚ} (h : 0.9 * S ≤ p) :
    3.5 ≤ lactateSeg3 S p := by
  unfold lactateSeg3
  have hc : (0:ℚ) < 0.2 * S := by positivity
  have : 0 ≤ (p - 0.9 * S) / (0.2 * S) := div_nonneg (by linarith) (le_of_lt hc)
  linarith

theorem seg3_mono (S : ℚ) (hS : 0 < S) {p q : ℚ} (h : p ≤ q) :
    lactateSeg3 S p ≤ lactateSeg3 S q := by
  unfold lactateSeg3
  have hc : (0:ℚ) < 0.2 * S := by positivity
  have := (div_le_div_iff_of_pos_right hc).mpr (show p - 0.9*S ≤ q - 0.9*S by linarith)
  linarith

/-- For positive sprint power the piecewise lactate function is monotone
in the intensity (a shared helper, used by the monotonicity claim). -/
theorem lactate_mono (S : ℚ) (hS : 0 < S) (p q : ℚ) (hpq : p ≤ q) :
    lactate S p ≤ lactate S q := by
  unfold lactate
  by_cases hp1 : p < 0.6 * S
  · by_cases hq1 : q < 0.6 * S
    · simp only [hp1, hq1, if_true]
      exact seg1_mono S hS hpq
    · by_cases hq2 : q < 0.9 * S
      · simp only [hp1, hq1, hq2, if_true, if_false]
        exact le_trans (seg1_ub S hS hp1) (seg2_lb S hS (le_of_not_lt hq1))
      · simp only [hp1, hq1, hq2, if_true, if_false]
        exact le_trans (seg1_ub S hS hp1)
          (le_trans (by norm_num) (seg3_lb S hS (le_of_not_lt hq2)))
  · have hq1 : ¬ q < 0.6 * S := fun h => hp1 (lt_of_le_of_lt hpq h)
    by_cases hp2 : p < 0.9 * S
    · by_cases hq2 : q < 0.9 * S
      · simp only [hp1, hq1, hp2, hq2, if_true, if_false]
        exact seg2_mono S hS hpq
      · simp only [hp1, hq1, hp2, hq2, if_true, if_false]
        exact le_trans (seg2_ub S hS hp2) (seg3_lb S hS (le_of_not_lt hq2))
    · have hq2 : ¬ q < 0.9 * S := fun h => hp2 (lt_of_le_of_lt hpq h)
      simp only [hp1, hq1, hp2, hq2, if_false]
      exact seg3_mono S hS hpq

/-! ## Claim theorems -/

/-- C1: the spec demands that an invalid profile (here the inverted
thresholds lt1Hr=165 > lt2Hr=140) reject the whole calculation before any
curve is generated.  In the script the calculation section sits at module
top level, outside the validated branch: validation fails, yet a full
result — 15 lactate samples, 60 O₂-demand samples, 11 fuel samples and 5
zones — is still produced. -/
theorem script_computes_despite_invalid_profile :
    validationOk ⟨50, 165, 140, 190, 800⟩ = false ∧
    (computeAll ⟨50, 165, 140, 190, 800⟩).zoneTable.length = 5 ∧
    (computeAll ⟨50, 165, 140, 190, 800⟩).lactateCurve.length = 15 ∧
    (computeAll ⟨50, 165, 140, 190, 800⟩).o2DemandCurve.length = 60 ∧
    (computeAll ⟨50, 165, 140, 190, 800⟩).fatKcalCurve.length = 11 := by
  refine ⟨?_, ?_, ?_, ?_, ?_⟩
  · simp only [validationOk]
    norm_num
  · simp [computeAll, zones]
  · simp [computeAll, intensities]
  · simp [computeAll, timeSamples]
  · simp [computeAll]

/-- C2 counterexample: the profile (vo2max=50, lt1Hr=140, lt2Hr=185,
maxHr=190, sprintPower=800) passes validation, yet the claimed chain
lt1 < (lt1+lt2)/2 < lt2 < 0.95·maxHr < maxHr fails on the generated zone
upper bounds, because lt2 = 185 > 180.5 = 0.95·190. -/
theorem zone_chain_fails_for_valid_profile :
    validationOk ⟨50, 140, 185, 190, 800⟩ = true ∧
    ¬ List.Chain' (fun a b => a < b)
        ((zones 140 185 190).map (fun z => z.2.2)) := by
  constructor
  · simp only [validationOk]
    norm_num
  · unfold zones
    simp [List.chain'_cons]
    norm_num

/-- C2 amended: for a valid profile (positive fields, lt1 < lt2 < maxHr)
satisfying additionally lt2 < 0.95·maxHr, the upper bounds of the five
generated zones form the strictly increasing chain
lt1 < (lt1+lt2)/2 < lt2 < 0.95·maxHr < maxHr. -/
theorem zone_upper_bounds_chain (lt1 lt2 mh : ℚ)
    (h0 : 0 < lt1) (h1 : lt1 < lt2) (h2 : lt2 < mh) (h3 : lt2 < 0.95 * mh) :
    List.Chain' (fun a b => a < b) ((zones lt1 lt2 mh).map (fun z => z.2.2)) := by
  unfold zones
  simp only [List.map_cons, List.map_nil, List.chain'_cons, List.chain'_singleton,
    and_true]
  refine ⟨by linarith, by linarith, by linarith, by linarith⟩

/-- Witness for the amended C2 at the spec's concrete valid profile. -/
theorem zone_upper_bounds_chain_witness :
    List.Chain' (fun a b => a < b) ((zones 140 165 190).map (fun z => z.2.2)) :=
  zone_upper_bounds_chain 140 165 190 (by norm_num) (by norm_num) (by norm_num)
    (by norm_num)

/-- C3: for every input the zone dictionary has exactly 5 entries with the
fixed names and the fixed bound formulas, in order; at the concrete profile
(vo2max=50, lt1Hr=140, lt2Hr=165, maxHr=190, sprintPower=800) zone 4 is
[165, 180.5] and zone 5 is [180.5, 190]. -/
theorem zones_fixed_names_and_bounds :
    (∀ lt1 lt2 mh : ℚ,
      (zones lt1 lt2 mh).length = 5 ∧
      (zones lt1 lt2 mh).map Prod.fst =
        ["Zone 1 (Easy/Recovery)", "Zone 2 (Endurance)", "Zone 3 (Threshold)",
         "Zone 4 (Interval)", "Zone 5 (Max Effort)"]) ∧
    zones 140 165 190 =
      [("Zone 1 (Easy/Recovery)", 0, 140),
       ("Zone 2 (Endurance)", 140, 152.5),
       ("Zone 3 (Threshold)", 152.5, 165),
       ("Zone 4 (Interval)", 165, 180.5),
       ("Zone 5 (Max Effort)", 180.5, 190)] := by
  refine ⟨fun lt1 lt2 mh => ⟨rfl, rfl⟩, ?_⟩
  unfold zones
  norm_num

/-- C4: the spec says the O₂-demand series is the constant 0.85·vo2max
(42.5 at vo2max=50), but `np.full_like(time, vo2_steady)` inherits the
integer dtype of `time` and truncates: every sample is 42, and 42 differs
from the intended steady-state value. -/
theorem o2_demand_truncated :
    o2_demand 50 = 42 ∧ vo2_steady 50 = 42.5 ∧
    (∀ x ∈ (computeAll ⟨50, 140, 165, 190, 800⟩).o2DemandCurve, x = 42) ∧
    ((o2_demand 50 : ℚ) ≠ vo2_steady 50) := by
  have h42 : o2_demand 50 = 42 := by
    unfold o2_demand truncQ vo2_steady
    norm_num
  refine ⟨h42, by unfold vo2_steady; norm_num, ?_, ?_⟩
  · intro x hx
    simp only [computeAll, timeSamples, List.mem_map] at hx
    obtain ⟨_, _, rfl⟩ := hx
    exact h42
  · rw [h42]
    unfold vo2_steady
    norm_num

/-- C5: because the O₂-demand series is truncated to the integer 42 (see
the dtype slip in `o2_demand`), the sampled uptake at t = 295 s,
42.5·(1 − e^(−295/40)) ≈ 42.47, already exceeds the demand series the code
produces — the claimed inequality vo2Actual(t) ≤ o2Demand(t) fails on the
code at vo2max = 50, t = 295. -/
theorem vo2_actual_exceeds_truncated_demand :
    o2_demand 50 = 42 ∧ (o2_demand 50 : ℝ) < vo2_actual 50 295 := by
  have h42 : o2_demand 50 = 42 := by
    unfold o2_demand truncQ vo2_steady
    norm_num
  refine ⟨h42, ?_⟩
  rw [h42]
  have he : (85:ℝ) < Real.exp (59/8) := by
    have h1 : (2.71:ℝ) < Real.exp 1 := by
      have := Real.exp_one_gt_d9
      linarith
    have h2 : (2.71:ℝ)^5 ≤ (Real.exp 1)^5 := by
      apply pow_le_pow_left₀ (by norm_num) (le_of_lt h1)
    have h3 : Real.exp 1 ^ 5 = Real.exp 5 := by
      rw [← Real.exp_nat_mul]
      norm_num
    have h4 : Real.exp 5 ≤ Real.exp (59/8) := by
      apply Real.exp_le_exp.mpr
      norm_num
    nlinarith
  unfold vo2_actual
  have h0 : (0:ℝ) < Real.exp (59/8) := Real.exp_pos _
  have h1 : (-(295:ℝ))/40 = -(59/8) := by norm_num
  rw [h1, Real.exp_neg]
  have h2 : Real.exp (59/8) * (Real.exp (59/8))⁻¹ = 1 := mul_inv_cancel₀ (ne_of_gt h0)
  have h3 : (Real.exp (59/8))⁻¹ < 1/85 := by
    rw [inv_lt_iff_one_lt_mul₀ h0]
    nlinarith
  push_cast
  nlinarith

/-- C6: for every positive sprint power S the two formulas adjacent to
each segment boundary agree there: both give 1.5 at p = 0.6·S and both
give 3.5 at p = 0.9·S, so the piecewise lactate function is continuous at
the boundaries. -/
theorem lactate_continuous_at_boundaries (S : ℚ) (hS : 0 < S) :
    lactateSeg1 S (0.6 * S) = 1.5 ∧ lactateSeg2 S (0.6 * S) = 1.5 ∧
    lactateSeg2 S (0.9 * S) = 3.5 ∧ lactateSeg3 S (0.9 * S) = 3.5 := by
  have hne : S ≠ 0 := ne_of_gt hS
  unfold lactateSeg1 lactateSeg2 lactateSeg3
  refine ⟨?_, ?_, ?_, ?_⟩ <;> field_simp <;> ring

/-- Witness for C6 at sprintPower = 800: both boundary formulas give 1.5
at p = 480 = 0.6·800 and 3.5 at p = 720 = 0.9·800. -/
theorem lactate_continuous_at_boundaries_witness :
    lactateSeg1 800 (0.6 * 800) = 1.5 ∧ lactateSeg2 800 (0.6 * 800) = 1.5 ∧
    lactateSeg2 800 (0.9 * 800) = 3.5 ∧ lactateSeg3 800 (0.9 * 800) = 3.5 :=
  lactate_continuous_at_boundaries 800 (by norm_num)

/-- C7: for every positive sprint power the piecewise lactate function is
monotonically non-decreasing on p ≥ 0, and consequently consecutive
samples of the 15-point lactate curve are non-decreasing. -/
theorem lactate_monotone_nondecreasing (S : ℚ) (hS : 0 < S) :
    (∀ p q : ℚ, 0 ≤ p → p ≤ q → lactate S p ≤ lactate S q) ∧
    (∀ i : ℕ, i < 14 → lactate S (intensity S i) ≤ lactate S (intensity S (i + 1))) := by
  constructor
  · intro p q _ hpq
    exact lactate_mono S hS p q hpq
  · intro i _
    apply lactate_mono S hS
    unfold intensity
    push_cast
    nlinarith [hS.le]

/-- Witness for C7 at sprintPower = 800 on concrete intensities. -/
theorem lactate_monotone_nondecreasing_witness :
    lactate 800 480 ≤ lactate 800 500 ∧
    lactate 800 (intensity 800 0) ≤ lactate 800 (intensity 800 1) :=
  ⟨(lactate_monotone_nondecreasing 800 (by norm_num)).1 480 500 (by norm_num)
      (by norm_num),
   (lactate_monotone_nondecreasing 800 (by norm_num)).2 0 (by norm_num)⟩

/-- fat_pct is antitone (shared helper used by the fuel-split claim). -/
theorem fat_pct_antitone {x y : ℚ} (h : x ≤ y) : fat_pct y ≤ fat_pct x := by
  unfold fat_pct
  exact min_le_min (max_le_max (by linarith) le_rfl) le_rfl

/-- C8: at every one of the 11 fuel-split samples, fatPct + carbPct = 100
exactly and fatKcal + carbKcal equals the total kcal rate exactly, and
fatPct does not increase from one sample to the next. -/
theorem fuel_split_invariants (i : ℕ) (hi : i < 11) :
    fat_pct (intensityPct i) + carb_pct (intensityPct i) = 100 ∧
    fat_cal (intensityPct i) + carb_cal (intensityPct i) = calories (intensityPct i) ∧
    (i < 10 → fat_pct (intensityPct (i + 1)) ≤ fat_pct (intensityPct i)) := by
  refine ⟨?_, ?_, ?_⟩
  · unfold carb_pct
    ring
  · unfold fat_cal carb_cal carb_pct
    ring
  · intro _
    apply fat_pct_antitone
    unfold intensityPct
    push_cast
    linarith

/-- Witness for C8 at sample i = 3 (intensity 65 %). -/
theorem fuel_split_invariants_witness :
    fat_pct (intensityPct 3) + carb_pct (intensityPct 3) = 100 ∧
    fat_cal (intensityPct 3) + carb_cal (intensityPct 3) = calories (intensityPct 3) ∧
    (3 < 10 → fat_pct (intensityPct 4) ≤ fat_pct (intensityPct 3)) :=
  fuel_split_invariants 3 (by norm_num)

/-- C9: the calculation is a pure function of the five profile fields:
two profiles that agree on all five fields produce identical curve sets,
zones and VO2-kinetics series, so memoization keyed on the full profile is
observationally safe. -/
theorem computeAll_deterministic (p q : AthleteProfile)
    (h1 : p.vo2max = q.vo2max) (h2 : p.lt1Hr = q.lt1Hr) (h3 : p.lt2Hr = q.lt2Hr)
    (h4 : p.maxHr = q.maxHr) (h5 : p.sprintPower = q.sprintPower) :
    computeAll p = computeAll q ∧
    (∀ t : ℝ, vo2_actual (p.vo2max : ℝ) t = vo2_actual (q.vo2max : ℝ) t) := by
  obtain ⟨a1, a2, a3, a4, a5⟩ := p
  obtain ⟨b1, b2, b3, b4, b5⟩ := q
  simp only at h1 h2 h3 h4 h5
  subst h1
  subst h2
  subst h3
  subst h4
  subst h5
  exact ⟨rfl, fun t => rfl⟩

/-- Witness for C9 at two (syntactically equal) concrete profiles. -/
theorem computeAll_deterministic_witness :
    computeAll ⟨50, 140, 165, 190, 800⟩ = computeAll ⟨50, 140, 165, 190, 800⟩ :=
  (computeAll_deterministic ⟨50, 140, 165, 190, 800⟩ ⟨50, 140, 165, 190, 800⟩
    rfl rfl rfl rfl rfl).1

/-- C10: with sprintPower > 0 none of the three divisions in the lactate
loop has a zero denominator (the checked evaluation agrees with the total
one); with sprintPower = 0 every intensity sample equals 0, the loop falls
through to the final branch, and that branch's division is literally 0/0
(the checked evaluation reports the zero divisor). -/
theorem lactate_division_guard (S p : ℚ) (hS : 0 < S) :
    lactateChecked S p = some (lactate S p) ∧
    (∀ q ∈ intensities 0, q = 0 ∧ lactateChecked 0 q = none) := by
  constructor
  · have h6 : (0:ℚ) < 0.6 * S := by positivity
    have h3 : (0:ℚ) < 0.3 * S := by positivity
    have h2 : (0:ℚ) < 0.2 * S := by positivity
    simp only [lactateChecked, lactate, divChecked, lactateSeg1, lactateSeg2,
      lactateSeg3, if_neg h6.ne', if_neg h3.ne', if_neg h2.ne', Option.map_some']
    split_ifs <;> rfl
  · intro q hq
    have hq0 : q = 0 := by
      simp only [intensities, List.mem_map, intensity] at hq
      obtain ⟨i, _, rfl⟩ := hq
      ring
    subst hq0
    refine ⟨rfl, ?_⟩
    norm_num [lactateChecked, divChecked]

/-- Witness for C10: at sprintPower = 800 the checked and total lactate
evaluations agree at p = 480, and at sprintPower = 0 the sample p = 0 hits
the 0/0 division. -/
theorem lactate_division_guard_witness :
    lactateChecked 800 480 = some (lactate 800 480) ∧ lactateChecked 0 0 = none :=
  ⟨(lactate_division_guard 800 480 (by norm_num)).1,
   ((lactate_division_guard 800 480 (by norm_num)).2 0
     (List.mem_map.mpr ⟨0, List.mem_range.mpr (by norm_num), by
       simp [intensity]⟩)).2⟩
